import Mathlib

/- Shallow embedding of the AttentionScreen repository.

   Display surface (src/main.ts): timer engine with configured mode/duration,
   a 100ms poll scheduler, urgent-threshold signaling and MM:SS formatting,
   plus applySettings, the reducer for incoming settings snapshots.

   Control surface (src/settings.ts, the full eight-field version): stored
   settings with defaults, and pushNow, the debounced publisher's
   equality-gated persist-and-emit step. -/

/-- The timerMode field of AppSettings: "off" | "countdown". -/
inductive TimerMode
  | off
  | countdown
deriving DecidableEq, Repr

/-- The AppSettings snapshot type shared by both surfaces (eight fields). -/
structure AppSettings where
  bg : String
  titleText : String
  text : String
  subtitleText : String
  subtitleColor : String
  timerMode : TimerMode
  timerMin : Int
  timerSec : Int
deriving DecidableEq, Repr

/-- The decimal digit character for d < 10 (JS String(n) rendering). -/
def digitChar (d : Nat) : Char := Char.ofNat (48 + d)

/-- Decimal digits of n, most significant first; fuel-driven so the kernel
    can evaluate it (fuel ≥ n suffices, and the fuel-0 fallback is never hit
    then). -/
def digitsCore : Nat → Nat → List Char
  | 0, n => [digitChar (n % 10)]
  | fuel + 1, n =>
    if n < 10 then [digitChar n] else digitsCore fuel (n / 10) ++ [digitChar (n % 10)]

/-- JS String(n) for a natural number. -/
def natRepr (n : Nat) : String := String.mk (digitsCore n n)

/-- JS String(n) for an integer. -/
def intRepr (n : Int) : String :=
  if n < 0 then "-" ++ natRepr n.natAbs else natRepr n.toNat

/-- padStart(2, "0") as used by pad2 in src/main.ts. -/
def padStart2 (s : String) : String :=
  if s.length < 2 then String.mk (List.replicate (2 - s.length) '0') ++ s else s

/-- pad2 from src/main.ts: String(Math.max(0, Math.floor(n))).padStart(2, "0");
    on integer inputs Math.floor is the identity. -/
def pad2 (n : Int) : String := padStart2 (natRepr (max 0 n).toNat)

/-- The totalSec of formatMs in src/main.ts: Math.max(0, Math.ceil(ms / 1000)).
    For integer ms and positive divisor, the ceiling is (ms + 999) / 1000 with
    floor division, which is Lean's Int division. -/
def totalSeconds (ms : Int) : Int := max 0 ((ms + 999) / 1000)

/-- formatMs from src/main.ts: MM:SS over the clamped ceiling of ms/1000. -/
def formatMs (ms : Int) : String :=
  pad2 (totalSeconds ms / 60) ++ ":" ++ pad2 (totalSeconds ms % 60)

/-- setThemeSlot from src/main.ts: hex values pass through, token keys map to
    a CSS var reference. -/
def setThemeSlotValue (value : String) : String :=
  if value.startsWith "#" then value else "var(--pcc-" ++ value ++ ")"

/-- The display surface's (main window) mutable state: the CSS slots and shown
    text set by applySettings, the module-level configured mode and duration,
    and the timer engine's interval handle (as a Bool: interval non-null),
    remaining time, urgent class and timer display. -/
structure EngineState where
  bgSlot : String
  textSlot : String
  subColorSlot : String
  shownTitle : String
  shownSubtitle : String
  subtitleHidden : Bool
  configuredTimerMode : TimerMode
  configuredDurationMs : Int
  timerTicking : Bool
  remainingMs : Int
  urgent : Bool
  displayText : String
  displayShown : Bool
deriving DecidableEq, Repr

/-- Module-level initial state of src/main.ts: mode "off", duration 0,
    interval null, remainingMs 0, no urgent class, timer display hidden. -/
def initEngineState : EngineState :=
  { bgSlot := "", textSlot := "", subColorSlot := "", shownTitle := "",
    shownSubtitle := "", subtitleHidden := false,
    configuredTimerMode := TimerMode.off, configuredDurationMs := 0,
    timerTicking := false, remainingMs := 0, urgent := false,
    displayText := "", displayShown := false }

/-- URGENT_MS from src/main.ts: 5 minutes. -/
def URGENT_MS : Int := 5 * 60 * 1000

/-- setUrgent from src/main.ts: toggles the timer-urgent class. -/
def setUrgent (st : EngineState) (isUrgent : Bool) : EngineState :=
  { st with urgent := isUrgent }

/-- The condition syncUrgentClass passes to setUrgent. -/
def urgentSpec (st : EngineState) : Bool :=
  decide (st.configuredTimerMode = TimerMode.countdown) &&
  decide (0 < st.remainingMs) && decide (st.remainingMs ≤ URGENT_MS)

/-- syncUrgentClass from src/main.ts. -/
def syncUrgentClass (st : EngineState) : EngineState := setUrgent st (urgentSpec st)

/-- stopInterval from src/main.ts: clears any active interval. -/
def stopInterval (st : EngineState) : EngineState := { st with timerTicking := false }

/-- setDisplay from src/main.ts: sets the timer display text and visibility. -/
def setDisplay (st : EngineState) (txt : String) (shown : Bool) : EngineState :=
  { st with displayText := txt, displayShown := shown }

/-- setTextContent from src/main.ts: title and subtitle; the subtitle element
    is hidden exactly when the trimmed subtitle is empty. -/
def setTextContent (st : EngineState) (title subtitle : String) : EngineState :=
  { st with shownTitle := title, shownSubtitle := subtitle,
            subtitleHidden := decide (subtitle.trim.length = 0) }

/-- The duration computation inside applySettings (src/main.ts line 125):
    Math.max(0, (timerMin * 60 + Math.min(59, Math.max(0, timerSec))) * 1000).
    Only timerSec is clamped; the whole total is then floored at 0. -/
def computeDurationMs (s : AppSettings) : Int :=
  max 0 ((s.timerMin * 60 + min 59 (max 0 s.timerSec)) * 1000)

/-- startCountdown from src/main.ts (the part before installing the interval
    callback; the callback firings are the tick steps below). -/
def startCountdown (st : EngineState) : EngineState :=
  if st.configuredTimerMode ≠ TimerMode.countdown then st
  else
    let st1 := if st.remainingMs ≤ 0 then { st with remainingMs := st.configuredDurationMs } else st
    if st1.remainingMs ≤ 0 then st1
    else
      let st2 := setDisplay st1 (formatMs st1.remainingMs) true
      { st2 with timerTicking := true }

/-- One firing of the interval callback installed by startCountdown, with
    dt = now - lastTick. The callback only fires while the interval is
    active, so a state with no scheduler is left unchanged. -/
def tick (st : EngineState) (dt : Int) : EngineState :=
  if st.timerTicking then
    if st.remainingMs - dt ≤ 0 then
      setUrgent (stopInterval (setDisplay { st with remainingMs := 0 } "00:00" true)) false
    else
      syncUrgentClass
        (setDisplay { st with remainingMs := st.remainingMs - dt }
          (formatMs (st.remainingMs - dt)) true)
  else st

/-- A finite run of interval firings with the given deltas. -/
def runTicks (st : EngineState) : List Int → EngineState
  | [] => st
  | dt :: rest => runTicks (tick st dt) rest

/-- pauseCountdown from src/main.ts. -/
def pauseCountdown (st : EngineState) : EngineState :=
  let st1 := stopInterval st
  let st2 := setDisplay st1 (formatMs st1.remainingMs) (decide (0 < st1.remainingMs))
  syncUrgentClass st2

/-- resetCountdown from src/main.ts. -/
def resetCountdown (st : EngineState) : EngineState :=
  let st1 := { stopInterval st with remainingMs := st.configuredDurationMs }
  let st2 :=
    if st1.configuredTimerMode = TimerMode.countdown ∧ 0 < st1.remainingMs then
      setDisplay st1 (formatMs st1.remainingMs) true
    else
      setDisplay st1 "00:00" false
  syncUrgentClass st2

/-- setTimerMode from src/main.ts. It reads but does not write the
    module-level configuredTimerMode (its caller applySettings updates that
    before calling it). -/
def setTimerMode (st : EngineState) (mode : TimerMode) : EngineState :=
  if mode = TimerMode.off then
    setUrgent (setDisplay { stopInterval st with remainingMs := 0 } "00:00" false) false
  else
    if st.timerTicking = false then
      let st1 := if st.remainingMs ≤ 0 then { st with remainingMs := st.configuredDurationMs } else st
      if 0 < st1.remainingMs then setDisplay st1 (formatMs st1.remainingMs) true
      else setDisplay st1 "00:00" false
    else st

/-- applySettings from src/main.ts: apply cosmetics unconditionally, update
    the configured mode and duration, call setTimerMode, and reset the
    countdown only when in countdown mode with the mode or duration changed. -/
def applySettings (st : EngineState) (s : AppSettings) : EngineState :=
  let st1 := { setTextContent st s.titleText s.subtitleText with
               bgSlot := setThemeSlotValue s.bg,
               textSlot := setThemeSlotValue s.text,
               subColorSlot := setThemeSlotValue s.subtitleColor }
  let newDurationMs := computeDurationMs s
  let st2 := { st1 with configuredTimerMode := s.timerMode,
                        configuredDurationMs := newDurationMs }
  let st3 := setTimerMode st2 s.timerMode
  if s.timerMode = TimerMode.countdown ∧
      (s.timerMode ≠ st1.configuredTimerMode ∨ newDurationMs ≠ st1.configuredDurationMs) then
    resetCountdown st3
  else st3

/- ------------------------------------------------------------------
   Settings store and the two readStoredSettings functions.
   ------------------------------------------------------------------ -/

/-- The persisted key/value store (localStorage): a partial map from keys to
    string values; an absent key reads as none. -/
def SettingsStore := String → Option String

/-- localStorage.getItem(key) ?? dflt. -/
def getItemOr (store : SettingsStore) (key dflt : String) : String :=
  (store key).getD dflt

/-- The store with every key absent. -/
def emptyStore : SettingsStore := fun _ => none

/-- Number() on the canonical decimal strings this app stores (timerMin and
    timerSec are always written as String(n) of a non-negative integer).
    Non-numeric strings are NaN in JS; they are mapped to 0 here and are
    never produced by this app's own writes. -/
def parseDigitsCore : List Char → Nat → Option Nat
  | [], acc => some acc
  | c :: cs, acc =>
    if 48 ≤ c.toNat ∧ c.toNat ≤ 57 then parseDigitsCore cs (acc * 10 + (c.toNat - 48))
    else none

/-- JS Number() restricted as described on parseDigitsCore. -/
def jsNumber (s : String) : Int :=
  match parseDigitsCore s.data 0 with
  | some n => Int.ofNat n
  | none => 0

/-- The cast (localStorage.getItem("timerMode") as ...) ?? "off": any stored
    value other than "countdown" behaves as "off" on this model's two-valued
    mode type; an absent key falls back to "off". -/
def parseTimerMode (s : String) : TimerMode :=
  if s = "countdown" then TimerMode.countdown else TimerMode.off

/-- readStoredSettings of the display surface (src/main.ts lines 99-110). -/
def mainReadStoredSettings (store : SettingsStore) : AppSettings :=
  { bg := getItemOr store "bg" "turquoise",
    subtitleColor := getItemOr store "subtitleColor" "navy",
    text := getItemOr store "text" "navy",
    titleText := getItemOr store "titleText" "ATTENTION",
    subtitleText := getItemOr store "subtitleText" "CHECK YOUR ZOOM CHAT",
    timerMode := parseTimerMode (getItemOr store "timerMode" "off"),
    timerMin := jsNumber (getItemOr store "timerMin" "5"),
    timerSec := jsNumber (getItemOr store "timerSec" "0") }

/-- readStoredSettings of the control surface (src/settings.ts, eight-field
    version): identical except the subtitleColor default is "white". -/
def settingsReadStoredSettings (store : SettingsStore) : AppSettings :=
  { bg := getItemOr store "bg" "turquoise",
    titleText := getItemOr store "titleText" "ATTENTION",
    text := getItemOr store "text" "navy",
    subtitleText := getItemOr store "subtitleText" "CHECK YOUR ZOOM CHAT",
    subtitleColor := getItemOr store "subtitleColor" "white",
    timerMode := parseTimerMode (getItemOr store "timerMode" "off"),
    timerMin := jsNumber (getItemOr store "timerMin" "5"),
    timerSec := jsNumber (getItemOr store "timerSec" "0") }

/- ------------------------------------------------------------------
   Publisher (control surface): serialization, equality gate, pushNow.
   ------------------------------------------------------------------ -/

/-- The string of a timerMode value under JSON.stringify. -/
def timerModeStr : TimerMode → String
  | TimerMode.off => "off"
  | TimerMode.countdown => "countdown"

/-- A JSON string literal (the app's color tokens and texts need no escaping
    beyond quoting for the equality-gate role the serialization plays). -/
def jsonStr (s : String) : String := "\"" ++ s ++ "\""

/-- JSON.stringify of a snapshot in the field order of the object literal in
    snapshotSettings (src/settings.ts): bg, titleText, text, subtitleText,
    subtitleColor, timerMode, timerMin, timerSec. -/
def serializeSettings (s : AppSettings) : String :=
  "\x7b\"bg\":" ++ jsonStr s.bg ++
  ",\"titleText\":" ++ jsonStr s.titleText ++
  ",\"text\":" ++ jsonStr s.text ++
  ",\"subtitleText\":" ++ jsonStr s.subtitleText ++
  ",\"subtitleColor\":" ++ jsonStr s.subtitleColor ++
  ",\"timerMode\":" ++ jsonStr (timerModeStr s.timerMode) ++
  ",\"timerMin\":" ++ intRepr s.timerMin ++
  ",\"timerSec\":" ++ intRepr s.timerSec ++ "\x7d"

/-- The publisher's state: the lastSent serialization (the equality gate),
    plus the observable effect log — the sequence of snapshots persisted by
    writeStoredSettings and the sequence emitted on settings:changed. -/
structure PubState where
  lastSent : String
  writes : List AppSettings
  emissions : List AppSettings
deriving DecidableEq, Repr

/-- Publisher state at surface startup: lastSent is the empty string. -/
def initPubState : PubState := { lastSent := "", writes := [], emissions := [] }

/-- Outcome of one pushNow call: the new state, whether settings:changed was
    emitted, and whether an exception escaped pushNow. -/
structure PushOutcome where
  state : PubState
  emitted : Bool
  threw : Bool
deriving DecidableEq, Repr

/-- pushNow from src/settings.ts, with writeOk telling whether the store
    write (writeStoredSettings) succeeds. The serialized snapshot is compared
    against lastSent; if equal nothing happens. Otherwise lastSent is updated
    first; then writeStoredSettings runs with no surrounding try/catch — if it
    throws, the exception escapes pushNow and the emit call is never reached.
    The emit itself is fire-and-forget (its failure is caught and logged). -/
def pushNow (st : PubState) (next : AppSettings) (writeOk : Bool) : PushOutcome :=
  if serializeSettings next = st.lastSent then
    { state := st, emitted := false, threw := false }
  else
    let st1 := { st with lastSent := serializeSettings next }
    if writeOk then
      { state := { st1 with writes := st1.writes ++ [next],
                            emissions := st1.emissions ++ [next] },
        emitted := true, threw := false }
    else
      { state := st1, emitted := false, threw := true }

/-- A sequence of pushNow attempts (each with its own write success flag). -/
def runPushes (st : PubState) : List (AppSettings × Bool) → PubState
  | [] => st
  | (s, ok) :: rest => runPushes (pushNow st s ok).state rest

/- ------------------------------------------------------------------
   Decimal-rendering lemmas for the display formatting claims.
   ------------------------------------------------------------------ -/

lemma digitsCore_ne_nil (fuel n : Nat) : digitsCore fuel n ≠ [] := by
  cases fuel with
  | zero => simp [digitsCore]
  | succ f =>
    by_cases h : n < 10 <;> simp [digitsCore, h]

lemma digitsCore_head_ne_zero :
    ∀ fuel n, 1 ≤ n → n ≤ fuel → ∀ cs, digitsCore fuel n ≠ '0' :: cs := by
  intro fuel
  induction fuel with
  | zero => intro n h1 h2 cs; omega
  | succ f ih =>
    intro n h1 h2 cs
    by_cases h : n < 10
    · have hd : digitChar n ≠ '0' := by
        interval_cases n <;> decide
      rw [digitsCore, if_pos h]
      intro habs
      injection habs with hh ht
      exact hd hh
    · rw [digitsCore, if_neg h]
      intro habs
      obtain ⟨c, t, hct⟩ := List.exists_cons_of_ne_nil (digitsCore_ne_nil f (n / 10))
      rw [hct] at habs
      rw [List.cons_append] at habs
      injection habs with hh ht
      have hn1 : 1 ≤ n / 10 := by omega
      have hn2 : n / 10 ≤ f := by omega
      exact ih (n / 10) hn1 hn2 t (hh ▸ hct)

lemma digitsCore_two_long (fuel n : Nat) (h10 : 10 ≤ n) (hf : 1 ≤ fuel) :
    2 ≤ (digitsCore fuel n).length := by
  cases fuel with
  | zero => omega
  | succ f =>
    have h : ¬ n < 10 := by omega
    simp [digitsCore, h]
    have := digitsCore_ne_nil f (n / 10)
    have : 0 < (digitsCore f (n / 10)).length := List.length_pos.mpr this
    omega

lemma padStart2_natRepr_zero (k : Nat) (h : padStart2 (natRepr k) = "00") : k = 0 := by
  by_contra hk
  have hk1 : 1 ≤ k := by omega
  by_cases h10 : k < 10
  · revert h
    interval_cases k <;> decide
  · have hlen : 2 ≤ (natRepr k).length := by
      have := digitsCore_two_long k k (by omega) (by omega)
      simpa [natRepr] using this
    rw [padStart2, if_neg (by omega)] at h
    have hdata : digitsCore k k = '0' :: ['0'] := by
      have := congrArg String.data h
      simpa [natRepr] using this
    exact digitsCore_head_ne_zero k k hk1 (le_refl k) ['0'] hdata

lemma pad2_eq_double_zero (x : Int) (h : pad2 x = "00") : x ≤ 0 := by
  have := padStart2_natRepr_zero (max 0 x).toNat (by simpa [pad2] using h)
  omega

lemma padStart2_two_le (s : String) : 2 ≤ (padStart2 s).length := by
  rw [padStart2]
  split
  · rw [String.length_append]
    have hrep : (String.mk (List.replicate (2 - s.length) '0')).length = 2 - s.length := by
      show (List.replicate (2 - s.length) '0').length = 2 - s.length
      exact List.length_replicate _ _
    omega
  · omega

lemma pad2_two_le (x : Int) : 2 ≤ (pad2 x).length := padStart2_two_le _

lemma formatMs_ne_empty_display (ms : Int) (h : 0 < ms) : formatMs ms ≠ "00:00" := by
  intro heq
  have ht : 1 ≤ totalSeconds ms := by
    rw [totalSeconds]; omega
  rw [formatMs] at heq
  have hdata := congrArg String.data heq
  rw [String.data_append, String.data_append] at hdata
  have hcolon : (":" : String).data = [':'] := rfl
  rw [hcolon] at hdata
  have hz : ("00:00" : String).data = ['0', '0', ':', '0', '0'] := rfl
  rw [hz] at hdata
  have hla : 2 ≤ (pad2 (totalSeconds ms / 60)).data.length := pad2_two_le _
  have hlb : 2 ≤ (pad2 (totalSeconds ms % 60)).data.length := pad2_two_le _
  have hlen := congrArg List.length hdata
  simp only [List.length_append, List.length_cons, List.length_nil] at hlen
  have hla2 : (pad2 (totalSeconds ms / 60)).data.length = 2 := by omega
  obtain ⟨c1, c2, hc⟩ := List.length_eq_two.mp hla2
  rw [hc] at hdata
  simp only [List.cons_append, List.nil_append, List.cons.injEq] at hdata
  obtain ⟨h1, h2, h3⟩ := hdata
  have hm : pad2 (totalSeconds ms / 60) = "00" := by
    apply String.ext
    rw [hc, h1, h2]
  have hs : pad2 (totalSeconds ms % 60) = "00" := by
    apply String.ext
    simp only [h3]
  have hm0 := pad2_eq_double_zero _ hm
  have hs0 := pad2_eq_double_zero _ hs
  omega

/-- C8: formatMs renders remainingMs as MM:SS over total whole seconds
    equal to the ceiling of ms/1000 clamped to be non-negative; it never
    returns 00:00 for positive remaining time, and the three named values
    render as stated. -/
theorem formatMs_display_rounding (ms : Int) :
    (0 < ms → 1000 * (totalSeconds ms - 1) < ms ∧ ms ≤ 1000 * totalSeconds ms) ∧
    (ms ≤ 0 → totalSeconds ms = 0 ∧ formatMs ms = "00:00") ∧
    (0 < ms → formatMs ms ≠ "00:00") ∧
    formatMs 60999 = "01:01" ∧ formatMs 60000 = "01:00" ∧ formatMs 0 = "00:00" := by
  have hceil : 0 < ms → 1000 * (totalSeconds ms - 1) < ms ∧ ms ≤ 1000 * totalSeconds ms := by
    intro h
    rw [totalSeconds]
    omega
  have hclamp : ms ≤ 0 → totalSeconds ms = 0 ∧ formatMs ms = "00:00" := by
    intro h
    have h0 : totalSeconds ms = 0 := by rw [totalSeconds]; omega
    refine ⟨h0, ?_⟩
    rw [formatMs, h0]
    decide
  exact ⟨hceil, hclamp, formatMs_ne_empty_display ms, by decide, by decide, by decide⟩

/-- Witness for C8 at ms = 60999. -/
theorem formatMs_display_rounding_witness :
    (0 : Int) < 60999 ∧
    (1000 * (totalSeconds 60999 - 1) < 60999 ∧ (60999 : Int) ≤ 1000 * totalSeconds 60999) := by
  refine ⟨by decide, (formatMs_display_rounding 60999).1 (by decide)⟩

/- ------------------------------------------------------------------
   Urgent flag: recomputation points and the invariant (claim C4).
   ------------------------------------------------------------------ -/

/-- The urgent-flag invariant: the timer-urgent class is only set in a
    countdown state with remaining time in (0, URGENT_MS]. -/
abbrev UrgentInv (st : EngineState) : Prop :=
  st.urgent = true →
    st.configuredTimerMode = TimerMode.countdown ∧ 0 < st.remainingMs ∧ st.remainingMs ≤ URGENT_MS

lemma urgent_eq_spec_inv (st : EngineState) (h : st.urgent = urgentSpec st) : UrgentInv st := by
  intro hu
  rw [hu] at h
  have h2 := h.symm
  simp only [urgentSpec, Bool.and_eq_true, decide_eq_true_eq] at h2
  exact ⟨h2.1.1, h2.1.2, h2.2⟩

lemma pauseCountdown_urgent (st : EngineState) :
    (pauseCountdown st).urgent = urgentSpec (pauseCountdown st) := by
  simp [pauseCountdown, syncUrgentClass, setUrgent, setDisplay, stopInterval, urgentSpec]

lemma resetCountdown_urgent (st : EngineState) :
    (resetCountdown st).urgent = urgentSpec (resetCountdown st) := by
  simp only [resetCountdown, syncUrgentClass, setUrgent, setDisplay, stopInterval, urgentSpec]

lemma tick_urgent (st : EngineState) (dt : Int) (h : st.timerTicking = true) :
    (tick st dt).urgent = urgentSpec (tick st dt) := by
  simp only [tick, h, if_true]
  split
  · simp [setUrgent, stopInterval, setDisplay, urgentSpec]
  · simp [syncUrgentClass, setUrgent, setDisplay, urgentSpec]

lemma setTimerMode_off_urgent (st : EngineState) :
    (setTimerMode st TimerMode.off).urgent = urgentSpec (setTimerMode st TimerMode.off) := by
  simp [setTimerMode, setUrgent, setDisplay, stopInterval, urgentSpec]

lemma urgentInv_tick (st : EngineState) (dt : Int) (h : UrgentInv st) :
    UrgentInv (tick st dt) := by
  by_cases ht : st.timerTicking = true
  · exact urgent_eq_spec_inv _ (tick_urgent st dt ht)
  · have : tick st dt = st := by
      simp only [tick]
      rw [if_neg]
      simpa using ht
    rw [this]
    exact h

lemma urgentInv_pause (st : EngineState) (h : UrgentInv st) :
    UrgentInv (pauseCountdown st) :=
  urgent_eq_spec_inv _ (pauseCountdown_urgent st)

lemma urgentInv_reset (st : EngineState) (h : UrgentInv st) :
    UrgentInv (resetCountdown st) :=
  urgent_eq_spec_inv _ (resetCountdown_urgent st)

lemma urgentInv_setTimerMode (st : EngineState) (m : TimerMode) (h : UrgentInv st) :
    UrgentInv (setTimerMode st m) := by
  cases m with
  | off =>
    intro hu
    simp [setTimerMode, setUrgent, setDisplay, stopInterval] at hu
  | countdown =>
    by_cases ht : st.timerTicking = false
    · by_cases hu : st.urgent = true
      · obtain ⟨hmode, hrem, hle⟩ := h hu
        have hrle : ¬ st.remainingMs ≤ 0 := by omega
        intro _
        simp [setTimerMode, setDisplay, ht, if_neg hrle, if_pos hrem, hmode, hrem, hle]
      · intro habs
        have hurg : (setTimerMode st TimerMode.countdown).urgent = st.urgent := by
          simp only [setTimerMode, setDisplay]
          rw [if_neg (by simp : ¬ (TimerMode.countdown = TimerMode.off)), if_pos ht]
          split <;> split <;> rfl
        rw [hurg] at habs
        exact absurd habs hu
    · have hst : setTimerMode st TimerMode.countdown = st := by
        simp [setTimerMode, ht]
      rw [hst]
      exact h

lemma urgentInv_start (st : EngineState) (h : UrgentInv st) :
    UrgentInv (startCountdown st) := by
  by_cases hm : st.configuredTimerMode = TimerMode.countdown
  · by_cases hu : st.urgent = true
    · obtain ⟨hmode, hrem, hle⟩ := h hu
      have hrle : ¬ st.remainingMs ≤ 0 := by omega
      intro _
      simp [startCountdown, setDisplay, hm, if_neg hrle, hmode, hrem, hle]
    · intro habs
      have hurg : (startCountdown st).urgent = st.urgent := by
        simp only [startCountdown, setDisplay]
        rw [if_neg (by simp [hm] : ¬ (st.configuredTimerMode ≠ TimerMode.countdown))]
        split <;> (try split) <;> rfl
      rw [hurg] at habs
      exact absurd habs hu
  · have : startCountdown st = st := by
      simp [startCountdown, hm]
    rw [this]
    exact h

/-- The unconditional first phase of applySettings: cosmetics plus the
    configured-mode/duration update, before setTimerMode and the
    conditional reset. -/
def applyPhase1 (st : EngineState) (s : AppSettings) : EngineState :=
  { setTextContent st s.titleText s.subtitleText with
    bgSlot := setThemeSlotValue s.bg,
    textSlot := setThemeSlotValue s.text,
    subColorSlot := setThemeSlotValue s.subtitleColor,
    configuredTimerMode := s.timerMode,
    configuredDurationMs := computeDurationMs s }

lemma applySettings_eq (st : EngineState) (s : AppSettings) :
    applySettings st s =
      if s.timerMode = TimerMode.countdown ∧
          (s.timerMode ≠ st.configuredTimerMode ∨ computeDurationMs s ≠ st.configuredDurationMs) then
        resetCountdown (setTimerMode (applyPhase1 st s) s.timerMode)
      else setTimerMode (applyPhase1 st s) s.timerMode := by
  rfl

lemma resetCountdown_remainingMs (st : EngineState) :
    (resetCountdown st).remainingMs = st.configuredDurationMs := by
  simp only [resetCountdown, syncUrgentClass, setUrgent, setDisplay, stopInterval]
  split <;> rfl

lemma resetCountdown_ticking (st : EngineState) :
    (resetCountdown st).timerTicking = false := by
  simp only [resetCountdown, syncUrgentClass, setUrgent, setDisplay, stopInterval]
  split <;> rfl

lemma resetCountdown_mode (st : EngineState) :
    (resetCountdown st).configuredTimerMode = st.configuredTimerMode := by
  simp only [resetCountdown, syncUrgentClass, setUrgent, setDisplay, stopInterval]
  split <;> rfl

lemma resetCountdown_duration (st : EngineState) :
    (resetCountdown st).configuredDurationMs = st.configuredDurationMs := by
  simp only [resetCountdown, syncUrgentClass, setUrgent, setDisplay, stopInterval]
  split <;> rfl

lemma setTimerMode_ticking_id (st : EngineState) (h : st.timerTicking = true) :
    setTimerMode st TimerMode.countdown = st := by
  simp [setTimerMode, h]

lemma setTimerMode_mode (st : EngineState) (m : TimerMode) :
    (setTimerMode st m).configuredTimerMode = st.configuredTimerMode := by
  simp only [setTimerMode, setUrgent, setDisplay, stopInterval]
  split
  · rfl
  · split
    · split <;> (try split) <;> rfl
    · rfl

lemma setTimerMode_duration (st : EngineState) (m : TimerMode) :
    (setTimerMode st m).configuredDurationMs = st.configuredDurationMs := by
  simp only [setTimerMode, setUrgent, setDisplay, stopInterval]
  split
  · rfl
  · split
    · split <;> (try split) <;> rfl
    · rfl

lemma setTimerMode_off_urgent_false (st : EngineState) :
    (setTimerMode st TimerMode.off).urgent = false := by
  simp [setTimerMode, setUrgent, setDisplay, stopInterval]

lemma urgentInv_applySettings (st : EngineState) (s : AppSettings) (h : UrgentInv st) :
    UrgentInv (applySettings st s) := by
  rw [applySettings_eq]
  cases hm : s.timerMode with
  | off =>
    rw [if_neg (by simp [hm])]
    intro habs
    rw [setTimerMode_off_urgent_false] at habs
    exact absurd habs (by simp)
  | countdown =>
    split
    · exact urgent_eq_spec_inv _ (resetCountdown_urgent _)
    · apply urgentInv_setTimerMode
      intro hu
      have hu' : st.urgent = true := hu
      obtain ⟨hmode, hrem, hle⟩ := h hu'
      exact ⟨by simp [applyPhase1, setTextContent, hm], hrem, hle⟩

/-- A concrete running-countdown state used by witnesses: duration 60000ms,
    remaining 30000ms, scheduler active. -/
def wRunning : EngineState :=
  { initEngineState with
    configuredTimerMode := TimerMode.countdown,
    configuredDurationMs := 60000,
    timerTicking := true,
    remainingMs := 30000 }

/-- A concrete snapshot used by witnesses: countdown, 1 minute. -/
def wSnapshot : AppSettings :=
  { bg := "turquoise", titleText := "ATTENTION", text := "navy",
    subtitleText := "CHECK YOUR ZOOM CHAT", subtitleColor := "navy",
    timerMode := TimerMode.countdown, timerMin := 1, timerSec := 0 }

/-- C4: whenever the urgent class is recomputed (tick, pause, reset, and
    setMode off), it equals the predicate mode = countdown and
    0 < remainingMs and remainingMs ≤ 300000; the stated threshold values
    hold (300001 false, 300000 true, 0 false, mode off false at any
    remaining); and the invariant urgent implies countdown with remaining in
    (0, 300000] is preserved by every engine operation. -/
theorem urgent_threshold_invariant (st : EngineState) (dt r : Int) (m : TimerMode)
    (s : AppSettings) :
    ((pauseCountdown st).urgent = urgentSpec (pauseCountdown st)) ∧
    ((resetCountdown st).urgent = urgentSpec (resetCountdown st)) ∧
    (st.timerTicking = true → (tick st dt).urgent = urgentSpec (tick st dt)) ∧
    ((setTimerMode st TimerMode.off).urgent = urgentSpec (setTimerMode st TimerMode.off)) ∧
    ((syncUrgentClass
        { st with configuredTimerMode := TimerMode.countdown, remainingMs := 300001 }).urgent
      = false) ∧
    ((syncUrgentClass
        { st with configuredTimerMode := TimerMode.countdown, remainingMs := 300000 }).urgent
      = true) ∧
    ((syncUrgentClass
        { st with configuredTimerMode := TimerMode.countdown, remainingMs := 0 }).urgent
      = false) ∧
    ((syncUrgentClass
        { st with configuredTimerMode := TimerMode.off, remainingMs := r }).urgent = false) ∧
    (UrgentInv st →
      UrgentInv (tick st dt) ∧ UrgentInv (pauseCountdown st) ∧ UrgentInv (resetCountdown st) ∧
      UrgentInv (setTimerMode st m) ∧ UrgentInv (startCountdown st) ∧
      UrgentInv (applySettings st s)) := by
  refine ⟨pauseCountdown_urgent st, resetCountdown_urgent st, tick_urgent st dt,
    setTimerMode_off_urgent st, ?_, ?_, ?_, ?_, ?_⟩
  · simp [syncUrgentClass, setUrgent, urgentSpec, URGENT_MS]
  · simp [syncUrgentClass, setUrgent, urgentSpec, URGENT_MS]
  · simp [syncUrgentClass, setUrgent, urgentSpec]
  · simp [syncUrgentClass, setUrgent, urgentSpec]
  · intro h
    exact ⟨urgentInv_tick st dt h, urgentInv_pause st h, urgentInv_reset st h,
           urgentInv_setTimerMode st m h, urgentInv_start st h,
           urgentInv_applySettings st s h⟩

/-- Witness for C4 at the concrete running state wRunning. -/
theorem urgent_threshold_invariant_witness :
    (tick wRunning 100).urgent = urgentSpec (tick wRunning 100) ∧
    (UrgentInv (tick wRunning 100) ∧ UrgentInv (pauseCountdown wRunning) ∧
     UrgentInv (resetCountdown wRunning) ∧
     UrgentInv (setTimerMode wRunning TimerMode.countdown) ∧
     UrgentInv (startCountdown wRunning) ∧ UrgentInv (applySettings wRunning wSnapshot)) := by
  have h := urgent_threshold_invariant wRunning 100 7 TimerMode.countdown wSnapshot
  exact ⟨h.2.2.1 (by decide), h.2.2.2.2.2.2.2.2 (by decide)⟩

/- ------------------------------------------------------------------
   Selective reset (claim C1).
   ------------------------------------------------------------------ -/

/-- wSnapshot with only a cosmetic change (background color). -/
def wSnapshotNavy : AppSettings := { wSnapshot with bg := "navy" }

/-- wSnapshot with a changed duration (2 minutes instead of 1). -/
def wSnapshot2Min : AppSettings := { wSnapshot with timerMin := 2 }

/-- C1: while a countdown is running with positive remaining time, a snapshot
    whose mode and computed duration both match the stored values leaves
    remainingMs and the ticking state unchanged, while a countdown snapshot
    whose mode or computed duration differs resets remainingMs to the newly
    configured duration and cancels ticking. -/
theorem applySettings_selective_reset (st : EngineState) (s : AppSettings)
    (hmode : st.configuredTimerMode = TimerMode.countdown)
    (hticking : st.timerTicking = true)
    (hR : 0 < st.remainingMs) :
    ((s.timerMode = st.configuredTimerMode ∧ computeDurationMs s = st.configuredDurationMs) →
      (applySettings st s).remainingMs = st.remainingMs ∧
      (applySettings st s).timerTicking = true) ∧
    ((s.timerMode = TimerMode.countdown ∧
        (s.timerMode ≠ st.configuredTimerMode ∨ computeDurationMs s ≠ st.configuredDurationMs)) →
      (applySettings st s).remainingMs = computeDurationMs s ∧
      (applySettings st s).timerTicking = false) := by
  constructor
  · rintro ⟨h1, h2⟩
    rw [applySettings_eq, if_neg (by simp [h1, h2])]
    have hcd : s.timerMode = TimerMode.countdown := by rw [h1, hmode]
    rw [hcd, setTimerMode_ticking_id _ (show (applyPhase1 st s).timerTicking = true from hticking)]
    exact ⟨rfl, hticking⟩
  · rintro ⟨hcd, hneq⟩
    rw [applySettings_eq, if_pos ⟨hcd, hneq⟩]
    rw [hcd, setTimerMode_ticking_id _ (show (applyPhase1 st s).timerTicking = true from hticking)]
    refine ⟨?_, resetCountdown_ticking _⟩
    rw [resetCountdown_remainingMs]
    rfl

/-- Witness for C1: a color-only snapshot keeps remaining 30000ms and
    ticking; a 2-minute snapshot resets to the new duration and stops. -/
theorem applySettings_selective_reset_witness :
    ((applySettings wRunning wSnapshotNavy).remainingMs = wRunning.remainingMs ∧
     (applySettings wRunning wSnapshotNavy).timerTicking = true) ∧
    ((applySettings wRunning wSnapshot2Min).remainingMs = computeDurationMs wSnapshot2Min ∧
     (applySettings wRunning wSnapshot2Min).timerTicking = false) := by
  have hA := (applySettings_selective_reset wRunning wSnapshotNavy
    (by decide) (by decide) (by decide)).1 (by decide)
  have hB := (applySettings_selective_reset wRunning wSnapshot2Min
    (by decide) (by decide) (by decide)).2 (by decide)
  exact ⟨hA, hB⟩

/- ------------------------------------------------------------------
   Tick semantics (claim C3).
   ------------------------------------------------------------------ -/

lemma tick_not_ticking (st : EngineState) (dt : Int) (h : st.timerTicking = false) :
    tick st dt = st := by
  simp [tick, h]

lemma runTicks_not_ticking (st : EngineState) (ds : List Int) (h : st.timerTicking = false) :
    runTicks st ds = st := by
  induction ds with
  | nil => rfl
  | cons d rest ih =>
    rw [runTicks, tick_not_ticking st d h]
    exact ih

lemma runTicks_spec : ∀ (ds : List Int) (st : EngineState),
    st.configuredTimerMode = TimerMode.countdown →
    st.timerTicking = true →
    0 < st.remainingMs →
    (∀ d ∈ ds, 0 ≤ d) →
    ((ds.sum < st.remainingMs →
        (runTicks st ds).remainingMs = st.remainingMs - ds.sum ∧
        (runTicks st ds).timerTicking = true) ∧
      0 ≤ (runTicks st ds).remainingMs ∧
      (st.remainingMs ≤ ds.sum →
        (runTicks st ds).remainingMs = 0 ∧
        (runTicks st ds).timerTicking = false ∧
        (runTicks st ds).urgent = false)) := by
  intro ds
  induction ds with
  | nil =>
    intro st hm ht hr hd
    refine ⟨fun _ => ⟨by simp [runTicks], by rw [runTicks]; exact ht⟩, ?_, ?_⟩
    · rw [runTicks]; omega
    · intro hle
      rw [List.sum_nil] at hle
      omega
  | cons d rest ih =>
    intro st hm ht hr hd
    have hd0 : 0 ≤ d := hd d (by simp)
    have hdrest : ∀ x ∈ rest, 0 ≤ x := fun x hx => hd x (by simp [hx])
    have hsum0 : 0 ≤ rest.sum := List.sum_nonneg hdrest
    rw [runTicks]
    by_cases hexp : st.remainingMs - d ≤ 0
    · have h1 : (tick st d).remainingMs = 0 := by
        simp [tick, ht, hexp, setUrgent, stopInterval, setDisplay]
      have h2 : (tick st d).timerTicking = false := by
        simp [tick, ht, hexp, setUrgent, stopInterval, setDisplay]
      have h3 : (tick st d).urgent = false := by
        simp [tick, ht, hexp, setUrgent, stopInterval, setDisplay]
      rw [runTicks_not_ticking _ rest h2]
      refine ⟨fun hlt => ?_, by omega, fun _ => ⟨h1, h2, h3⟩⟩
      rw [List.sum_cons] at hlt
      omega
    · have h1 : (tick st d).remainingMs = st.remainingMs - d := by
        simp [tick, ht, hexp, syncUrgentClass, setUrgent, setDisplay]
      have h2 : (tick st d).timerTicking = true := by
        simp [tick, ht, hexp, syncUrgentClass, setUrgent, setDisplay]
      have h3 : (tick st d).configuredTimerMode = TimerMode.countdown := by
        simp [tick, ht, hexp, syncUrgentClass, setUrgent, setDisplay, hm]
      have hr' : 0 < (tick st d).remainingMs := by omega
      obtain ⟨ihA, ihB, ihC⟩ := ih (tick st d) h3 h2 hr' hdrest
      refine ⟨fun hlt => ?_, ihB, fun hge => ?_⟩
      · rw [List.sum_cons] at hlt
        have hlt' : rest.sum < (tick st d).remainingMs := by omega
        obtain ⟨e1, e2⟩ := ihA hlt'
        constructor
        · rw [e1, h1, List.sum_cons]
          ring
        · exact e2
      · rw [List.sum_cons] at hge
        exact ihC (by omega)

/-- C3: from a running countdown with remaining time D > 0, each tick with a
    non-negative delta decreases remainingMs by exactly that delta while the
    cumulative delta stays below D, remainingMs never becomes negative, and
    once the cumulative delta reaches D the remaining time is exactly 0, the
    scheduler is cancelled and the urgent class is cleared. -/
theorem countdown_tick_semantics (st : EngineState) (ds : List Int)
    (hm : st.configuredTimerMode = TimerMode.countdown)
    (ht : st.timerTicking = true)
    (hD : 0 < st.remainingMs)
    (hnn : ∀ d ∈ ds, 0 ≤ d) :
    (ds.sum < st.remainingMs →
      (runTicks st ds).remainingMs = st.remainingMs - ds.sum ∧
      (runTicks st ds).timerTicking = true) ∧
    0 ≤ (runTicks st ds).remainingMs ∧
    (st.remainingMs ≤ ds.sum →
      (runTicks st ds).remainingMs = 0 ∧
      (runTicks st ds).timerTicking = false ∧
      (runTicks st ds).urgent = false) :=
  runTicks_spec ds st hm ht hD hnn

/-- The wRunning state with a 405ms countdown, matching the spec's delta
    sequence [90, 110, 100, 105]. -/
def wShort : EngineState :=
  { wRunning with remainingMs := 405, configuredDurationMs := 405 }

/-- Witness for C3 with the spec's deltas: after the first three ticks
    remaining is D minus their sum with the scheduler still active; after all
    four (cumulative 405 = D) remaining is exactly 0, the scheduler is
    cancelled and urgent is off. -/
theorem countdown_tick_semantics_witness :
    ((runTicks wShort [90, 110, 100]).remainingMs
        = wShort.remainingMs - ([90, 110, 100] : List Int).sum ∧
     (runTicks wShort [90, 110, 100]).timerTicking = true) ∧
    ((runTicks wShort [90, 110, 100, 105]).remainingMs = 0 ∧
     (runTicks wShort [90, 110, 100, 105]).timerTicking = false ∧
     (runTicks wShort [90, 110, 100, 105]).urgent = false) := by
  have hA := (countdown_tick_semantics wShort [90, 110, 100]
    (by decide) (by decide) (by decide) (by decide)).1 (by decide)
  have hB := (countdown_tick_semantics wShort [90, 110, 100, 105]
    (by decide) (by decide) (by decide) (by decide)).2.2 (by decide)
  exact ⟨hA, hB⟩

/- ------------------------------------------------------------------
   Non-negativity of remaining time and configured duration, and the
   command-tolerance claims (claim C9).
   ------------------------------------------------------------------ -/

/-- Reachability invariant: between operations, remainingMs and the
    configured duration are never negative. -/
abbrev NonnegInv (st : EngineState) : Prop :=
  0 ≤ st.remainingMs ∧ 0 ≤ st.configuredDurationMs

lemma computeDurationMs_nonneg (s : AppSettings) : 0 ≤ computeDurationMs s :=
  le_max_left 0 _

lemma nonnegInv_tick (st : EngineState) (dt : Int) (h : NonnegInv st) :
    NonnegInv (tick st dt) := by
  obtain ⟨h1, h2⟩ := h
  constructor
  · simp only [tick]
    split
    · split
      · simp [setUrgent, stopInterval, setDisplay]
      · simp only [syncUrgentClass, setUrgent, setDisplay]
        omega
    · exact h1
  · simp only [tick]
    split
    · split <;> simp [setUrgent, stopInterval, setDisplay, syncUrgentClass, h2]
    · exact h2

lemma nonnegInv_pause (st : EngineState) (h : NonnegInv st) :
    NonnegInv (pauseCountdown st) := by
  obtain ⟨h1, h2⟩ := h
  exact ⟨by simpa [pauseCountdown, syncUrgentClass, setUrgent, setDisplay, stopInterval] using h1,
         by simpa [pauseCountdown, syncUrgentClass, setUrgent, setDisplay, stopInterval] using h2⟩

lemma nonnegInv_reset (st : EngineState) (h : NonnegInv st) :
    NonnegInv (resetCountdown st) :=
  ⟨by rw [resetCountdown_remainingMs]; exact h.2,
   by rw [resetCountdown_duration]; exact h.2⟩

lemma nonnegInv_setTimerMode (st : EngineState) (m : TimerMode) (h : NonnegInv st) :
    NonnegInv (setTimerMode st m) := by
  obtain ⟨h1, h2⟩ := h
  constructor
  · simp only [setTimerMode, setUrgent, setDisplay, stopInterval]
    split
    · simp
    · split
      · split <;> (try split) <;> simp <;> omega
      · exact h1
  · simp only [setTimerMode, setUrgent, setDisplay, stopInterval]
    split
    · exact h2
    · split
      · split <;> (try split) <;> simp <;> omega
      · exact h2

lemma nonnegInv_start (st : EngineState) (h : NonnegInv st) :
    NonnegInv (startCountdown st) := by
  obtain ⟨h1, h2⟩ := h
  constructor
  · simp only [startCountdown, setDisplay]
    split
    · exact h1
    · split <;> (try split) <;> simp <;> omega
  · simp only [startCountdown, setDisplay]
    split
    · exact h2
    · split <;> (try split) <;> simp <;> omega

lemma nonnegInv_applySettings (st : EngineState) (s : AppSettings) (h : NonnegInv st) :
    NonnegInv (applySettings st s) := by
  rw [applySettings_eq]
  have hph : NonnegInv (applyPhase1 st s) := ⟨h.1, computeDurationMs_nonneg s⟩
  split
  · exact nonnegInv_reset _ (nonnegInv_setTimerMode _ _ hph)
  · exact nonnegInv_setTimerMode _ _ hph

/-- A countdown-mode state with zero remaining time and zero configured
    duration (what a start command meets after a countdown snapshot with
    zero duration, or the inert continuation of the initial state). -/
def wInert : EngineState :=
  { initEngineState with configuredTimerMode := TimerMode.countdown }

/-- C9: in the engine's initial state (mode off, duration 0, remaining 0,
    no scheduler), start, pause and reset each leave mode, remainingMs,
    ticking and urgent unchanged and start no scheduler; and start is a
    no-op in every (invariant-respecting, hence non-negative) state whose
    mode is countdown with remainingMs ≤ 0 and configured duration ≤ 0. -/
theorem commands_before_snapshot (st : EngineState) :
    startCountdown initEngineState = initEngineState ∧
    ((pauseCountdown initEngineState).configuredTimerMode = TimerMode.off ∧
     (pauseCountdown initEngineState).remainingMs = 0 ∧
     (pauseCountdown initEngineState).timerTicking = false ∧
     (pauseCountdown initEngineState).urgent = false) ∧
    ((resetCountdown initEngineState).configuredTimerMode = TimerMode.off ∧
     (resetCountdown initEngineState).remainingMs = 0 ∧
     (resetCountdown initEngineState).timerTicking = false ∧
     (resetCountdown initEngineState).urgent = false) ∧
    (st.configuredTimerMode = TimerMode.countdown → st.remainingMs ≤ 0 →
     st.configuredDurationMs ≤ 0 → 0 ≤ st.remainingMs → 0 ≤ st.configuredDurationMs →
     startCountdown st = st) := by
  refine ⟨by decide, by decide, by decide, ?_⟩
  intro hm hr hd hr0 hd0
  have hrem : st.remainingMs = 0 := le_antisymm hr hr0
  have hdur : st.configuredDurationMs = 0 := le_antisymm hd hd0
  obtain ⟨bgS, txS, scS, sT, sS, sH, cm, cd, tk, rm, ug, dT, dS⟩ := st
  simp_all [startCountdown]

/-- Witness for C9: start is a no-op on the inert countdown state with zero
    duration and zero remaining time. -/
theorem commands_before_snapshot_witness : startCountdown wInert = wInert :=
  (commands_before_snapshot wInert).2.2.2 (by decide) (by decide) (by decide)
    (by decide) (by decide)

/- ------------------------------------------------------------------
   Duration derivation (claim C5) and store defaults (claim C7).
   ------------------------------------------------------------------ -/

/-- The claimed duration formula (from the spec wording for C5): minutes
    clamped to be non-negative first, seconds clamped to [0, 59], total then
    floored at zero. Stated only to compare against computeDurationMs, the
    formula the source actually uses. -/
def specClaimedDurationMs (s : AppSettings) : Int :=
  max 0 ((max 0 s.timerMin * 60 + min 59 (max 0 s.timerSec)) * 1000)

/-- A snapshot with negative minutes and 59 seconds. -/
def wNegMin : AppSettings := { wSnapshot with timerMin := -1, timerSec := 59 }

/-- Counterexample to C5 as stated: with timerMin = -1, timerSec = 59 the
    source computes duration 0 (the negative minutes cancel the clamped
    seconds before the final floor), not the 59000ms of the claimed
    clamp-minutes-first formula, so negative minutes do not behave as
    minutes = 0. -/
theorem duration_claim_counterexample :
    computeDurationMs wNegMin = 0 ∧
    specClaimedDurationMs wNegMin = 59000 ∧
    computeDurationMs wNegMin ≠ specClaimedDurationMs wNegMin ∧
    computeDurationMs { wNegMin with timerMin := 0 } = 59000 := by decide

/-- C5 amended: the configured duration after any snapshot equals
    max(0, (timerMin·60 + clamp(timerSec,0,59))·1000): only the seconds are
    clamped and the whole total is floored at zero; the duration is never
    negative, and for non-negative minutes the claimed clamp-minutes-first
    formula agrees with it. -/
theorem applySettings_duration (st : EngineState) (s : AppSettings) :
    (applySettings st s).configuredDurationMs = computeDurationMs s ∧
    0 ≤ computeDurationMs s ∧
    (0 ≤ s.timerMin → computeDurationMs s = specClaimedDurationMs s) := by
  refine ⟨?_, computeDurationMs_nonneg s, ?_⟩
  · rw [applySettings_eq]
    split
    · rw [resetCountdown_duration, setTimerMode_duration]
      rfl
    · rw [setTimerMode_duration]
      rfl
  · intro hmin
    rw [computeDurationMs, specClaimedDurationMs, max_eq_right hmin]

/-- Witness for C5 (amended) at the 1-minute snapshot. -/
theorem applySettings_duration_witness :
    (applySettings initEngineState wSnapshot).configuredDurationMs = computeDurationMs wSnapshot ∧
    computeDurationMs wSnapshot = specClaimedDurationMs wSnapshot := by
  have h := applySettings_duration initEngineState wSnapshot
  exact ⟨h.1, h.2.2 (by decide)⟩

/-- Counterexample to C7 as stated: on an all-absent store the control
    surface's reader yields subtitleColor "white", not the claimed "navy". -/
theorem defaults_counterexample :
    (settingsReadStoredSettings emptyStore).subtitleColor = "white" ∧
    ¬ (settingsReadStoredSettings emptyStore).subtitleColor = "navy" := by decide

/-- C7 amended: with every key absent the display surface reads exactly the
    claimed defaults; the control surface reads the same values except its
    subtitleColor default is "white". -/
theorem defaults_on_absent_keys :
    mainReadStoredSettings emptyStore =
      { bg := "turquoise", titleText := "ATTENTION", text := "navy",
        subtitleText := "CHECK YOUR ZOOM CHAT", subtitleColor := "navy",
        timerMode := TimerMode.off, timerMin := 5, timerSec := 0 } ∧
    settingsReadStoredSettings emptyStore =
      { bg := "turquoise", titleText := "ATTENTION", text := "navy",
        subtitleText := "CHECK YOUR ZOOM CHAT", subtitleColor := "white",
        timerMode := TimerMode.off, timerMin := 5, timerSec := 0 } := by decide

/- ------------------------------------------------------------------
   Publisher: idempotent publish (C2), store failure (C6), gate-first
   update (C10).
   ------------------------------------------------------------------ -/

/-- No snapshot serializes to the empty string, lastSent's startup value,
    so the very first pushNow after surface startup always passes the
    equality gate. -/
lemma serializeSettings_ne_empty (s : AppSettings) : serializeSettings s ≠ "" := by
  intro h
  have hl : (serializeSettings s).length = 0 := by rw [h]; rfl
  rw [serializeSettings] at hl
  simp only [String.length_append] at hl
  have h1 : ("\x7b\"bg\":" : String).length = 6 := rfl
  omega

lemma runPushes_suppressed (l : List (AppSettings × Bool)) (st : PubState)
    (h : ∀ p ∈ l, serializeSettings p.1 = st.lastSent) : runPushes st l = st := by
  induction l with
  | nil => rfl
  | cons p rest ih =>
    obtain ⟨ps, pok⟩ := p
    have hp : serializeSettings ps = st.lastSent := h (ps, pok) (by simp)
    rw [runPushes]
    have hs : (pushNow st ps pok).state = st := by simp [pushNow, hp]
    rw [hs]
    exact ih (fun q hq => h q (by simp [hq]))

/-- C2: an attempt whose serialization equals the last sent value performs
    no store write and no emission (the whole outcome is inert); from
    startup, where lastSent is empty, the first attempt always persists and
    emits; hence two back-to-back attempts with the same snapshot from
    startup yield exactly one settings:changed emission. -/
theorem pushNow_idempotent_first_emit (st : PubState) (s : AppSettings) (ok : Bool) :
    (serializeSettings s = st.lastSent →
      pushNow st s ok = { state := st, emitted := false, threw := false }) ∧
    (st.lastSent = "" →
      (pushNow st s true).emitted = true ∧
      (pushNow st s true).state.writes = st.writes ++ [s] ∧
      (pushNow st s true).state.emissions = st.emissions ++ [s]) ∧
    ((pushNow (pushNow initPubState s true).state s true).state.emissions = [s] ∧
     (pushNow (pushNow initPubState s true).state s true).emitted = false) := by
  refine ⟨?_, ?_, ?_⟩
  · intro h
    simp [pushNow, h]
  · intro h
    have hne : ¬ serializeSettings s = st.lastSent := by
      rw [h]; exact serializeSettings_ne_empty s
    simp [pushNow, hne]
  · have hne0 : ¬ serializeSettings s = "" := serializeSettings_ne_empty s
    have h1 : (pushNow initPubState s true).state.lastSent = serializeSettings s := by
      simp [pushNow, initPubState, hne0]
    have h1e : (pushNow initPubState s true).state.emissions = [s] := by
      simp [pushNow, initPubState, hne0]
    generalize (pushNow initPubState s true).state = st1 at h1 h1e ⊢
    constructor
    · simp [pushNow, h1, h1e]
    · simp [pushNow, h1]

/-- The publisher state right after the first successful publish of
    wSnapshot from startup. -/
def wPushed : PubState := (pushNow initPubState wSnapshot true).state

set_option maxRecDepth 100000 in
/-- Witness for C2: a repeat of wSnapshot against wPushed is suppressed, the
    first attempt from startup emits, and the back-to-back pair emits
    exactly once. -/
theorem pushNow_idempotent_first_emit_witness :
    pushNow wPushed wSnapshot true = { state := wPushed, emitted := false, threw := false } ∧
    (pushNow initPubState wSnapshot true).emitted = true ∧
    (pushNow (pushNow initPubState wSnapshot true).state wSnapshot true).state.emissions
      = [wSnapshot] := by
  refine ⟨(pushNow_idempotent_first_emit wPushed wSnapshot true).1 (by decide), ?_, ?_⟩
  · exact ((pushNow_idempotent_first_emit initPubState wSnapshot true).2.1 rfl).1
  · exact (pushNow_idempotent_first_emit initPubState wSnapshot true).2.2.1

set_option maxRecDepth 100000 in
/-- Counterexample to C6 as stated: on an accepted publish whose store write
    throws, pushNow does not emit — the claim says the snapshot is still
    published and no exception escapes, but the write is not wrapped in
    try/catch, so the emit line is never reached and the exception escapes. -/
theorem store_failure_counterexample :
    (pushNow initPubState wSnapshot false).emitted = false ∧
    (pushNow initPubState wSnapshot false).threw = true := by decide

/-- C6 amended: when the store write of an accepted publish throws, the
    exception escapes pushNow (nothing catches it there), the snapshot is
    neither persisted nor emitted, and the lastSent equality gate has
    nevertheless already been updated; only the emit call itself is
    fire-and-forget, with its failures caught and logged. -/
theorem pushNow_write_failure (st : PubState) (s : AppSettings)
    (h : serializeSettings s ≠ st.lastSent) :
    pushNow st s false =
      { state := { st with lastSent := serializeSettings s },
        emitted := false, threw := true } := by
  simp [pushNow, h]

set_option maxRecDepth 100000 in
/-- Witness for C6 (amended) on the first publish attempt after startup. -/
theorem pushNow_write_failure_witness :
    pushNow initPubState wSnapshot false =
      { state := { initPubState with lastSent := serializeSettings wSnapshot },
        emitted := false, threw := true } :=
  pushNow_write_failure initPubState wSnapshot (by decide)

/-- C10: lastSent is updated before the side effects, so after any accepted
    attempt — also one whose store write throws — lastSent equals the
    snapshot's serialization; an immediately following attempt with an
    identically serialized snapshot is suppressed, and a whole run of
    identically serialized attempts after the failed write performs no
    write and no emission: the value is never retried until a field
    changes. -/
theorem pushNow_gate_before_effects (st : PubState) (s : AppSettings) (ok : Bool)
    (h : serializeSettings s ≠ st.lastSent) :
    (pushNow st s ok).state.lastSent = serializeSettings s ∧
    (∀ s2 ok2, serializeSettings s2 = serializeSettings s →
      pushNow (pushNow st s false).state s2 ok2 =
        { state := (pushNow st s false).state, emitted := false, threw := false }) ∧
    (∀ attempts : List (AppSettings × Bool),
      (∀ p ∈ attempts, serializeSettings p.1 = serializeSettings s) →
      runPushes (pushNow st s false).state attempts = (pushNow st s false).state) := by
  have hfail : (pushNow st s false).state.lastSent = serializeSettings s := by
    simp [pushNow, h]
  refine ⟨?_, ?_, ?_⟩
  · cases ok <;> simp [pushNow, h]
  · intro s2 ok2 h2
    generalize (pushNow st s false).state = st1 at hfail ⊢
    simp [pushNow, h2, hfail]
  · intro attempts hall
    apply runPushes_suppressed
    intro p hp
    rw [hfail]
    exact hall p hp

set_option maxRecDepth 100000 in
/-- Witness for C10: after a failed first write of wSnapshot, an identical
    retry is suppressed, and a run of identical retries (with the store
    healthy again or not) leaves the publisher state unchanged. -/
theorem pushNow_gate_before_effects_witness :
    (pushNow initPubState wSnapshot false).state.lastSent = serializeSettings wSnapshot ∧
    pushNow (pushNow initPubState wSnapshot false).state wSnapshot true =
      { state := (pushNow initPubState wSnapshot false).state,
        emitted := false, threw := false } ∧
    runPushes (pushNow initPubState wSnapshot false).state
        [(wSnapshot, true), (wSnapshot, false)] =
      (pushNow initPubState wSnapshot false).state := by
  have h := pushNow_gate_before_effects initPubState wSnapshot false (by decide)
  exact ⟨h.1, h.2.1 wSnapshot true rfl,
    h.2.2 [(wSnapshot, true), (wSnapshot, false)] (by decide)⟩
